import Mathlib

/-!
Shallow embedding of the dashboard controller in `src/js/main.js`
(class `WarDashboard`).  JavaScript numbers that can become `NaN` or
`±Infinity` are modelled by `JsNum`; plain JavaScript objects whose
values are spreadsheet cells are modelled as association lists in which
a later binding shadows an earlier one, matching object-spread
semantics.  The derived numeric `totalTime` field of a merged feature
is kept as a separate structure field (in the JavaScript object it is
written last and therefore shadows any string field of the same name).
-/

namespace Dashboard

/-! ## JavaScript number model -/

/-- A JavaScript number: either NaN, one of the two infinities, or a
finite value (idealised as a rational). -/
inductive JsNum where
  | nan
  | posInf
  | negInf
  | num (q : ℚ)
deriving DecidableEq, Repr

/-- JavaScript addition on `JsNum`. -/
def jsAdd : JsNum → JsNum → JsNum
  | .nan, _ => .nan
  | _, .nan => .nan
  | .posInf, .negInf => .nan
  | .negInf, .posInf => .nan
  | .posInf, _ => .posInf
  | _, .posInf => .posInf
  | .negInf, _ => .negInf
  | _, .negInf => .negInf
  | .num p, .num q => .num (p + q)

/-- JavaScript subtraction on `JsNum`. -/
def jsSub : JsNum → JsNum → JsNum
  | .nan, _ => .nan
  | _, .nan => .nan
  | .posInf, .posInf => .nan
  | .negInf, .negInf => .nan
  | .posInf, _ => .posInf
  | .negInf, _ => .negInf
  | .num _, .posInf => .negInf
  | .num _, .negInf => .posInf
  | .num p, .num q => .num (p - q)

/-- JavaScript multiplication on `JsNum`. -/
def jsMul : JsNum → JsNum → JsNum
  | .nan, _ => .nan
  | _, .nan => .nan
  | .num p, .num q => .num (p * q)
  | .posInf, .posInf => .posInf
  | .posInf, .negInf => .negInf
  | .negInf, .posInf => .negInf
  | .negInf, .negInf => .posInf
  | .posInf, .num q => if q = 0 then .nan else if 0 < q then .posInf else .negInf
  | .num p, .posInf => if p = 0 then .nan else if 0 < p then .posInf else .negInf
  | .negInf, .num q => if q = 0 then .nan else if 0 < q then .negInf else .posInf
  | .num p, .negInf => if p = 0 then .nan else if 0 < p then .negInf else .posInf

/-- JavaScript division on `JsNum` (finite zeros are `+0`, which is the
only zero the dashboard can produce since merged totals are integers). -/
def jsDiv : JsNum → JsNum → JsNum
  | .nan, _ => .nan
  | _, .nan => .nan
  | .posInf, .posInf => .nan
  | .posInf, .negInf => .nan
  | .negInf, .posInf => .nan
  | .negInf, .negInf => .nan
  | .posInf, .num q => if 0 ≤ q then .posInf else .negInf
  | .negInf, .num q => if 0 ≤ q then .negInf else .posInf
  | .num _, .posInf => .num 0
  | .num _, .negInf => .num 0
  | .num p, .num q =>
      if q = 0 then (if p = 0 then .nan else if 0 < p then .posInf else .negInf)
      else .num (p / q)

/-- JavaScript `Math.max` on two `JsNum` values. -/
def jsMax : JsNum → JsNum → JsNum
  | .nan, _ => .nan
  | _, .nan => .nan
  | .posInf, _ => .posInf
  | _, .posInf => .posInf
  | .negInf, b => b
  | a, .negInf => a
  | .num p, .num q => .num (if p ≤ q then q else p)

/-- Sum of a list of JavaScript numbers starting from `0`. -/
def jsSum (l : List JsNum) : JsNum :=
  l.foldl jsAdd (.num 0)

/-! ## JavaScript objects with string-valued fields -/

/-- A JavaScript object whose own fields hold strings, as an
association list; a later binding shadows an earlier one, so that
`a ++ b` models the object spread of `b` over `a`. -/
abbrev Obj := List (String × String)

/-- Field access `o[k]`: the last binding of `k` wins, `none` models
`undefined`. -/
def oget (o : Obj) (k : String) : Option String :=
  o.foldl (fun acc p => if p.1 == k then some p.2 else acc) none

/-! ## `parseInt` -/

/-- Decimal digit value of a character, if any. -/
def digitVal (c : Char) : Option Nat :=
  if '0' ≤ c ∧ c ≤ '9' then some (c.toNat - 48) else none

/-- Hexadecimal digit value of a character, if any. -/
def hexVal (c : Char) : Option Nat :=
  if '0' ≤ c ∧ c ≤ '9' then some (c.toNat - 48)
  else if 'a' ≤ c ∧ c ≤ 'f' then some (c.toNat - 87)
  else if 'A' ≤ c ∧ c ≤ 'F' then some (c.toNat - 55)
  else none

/-- Reads the maximal digit run at the head of `cs`; `none` if there is
no digit at all. -/
def readDigits (val : Char → Option Nat) (base : Nat) (cs : List Char) : Option Nat :=
  let ds := cs.takeWhile fun c => (val c).isSome
  if ds.isEmpty then none
  else some (ds.foldl (fun a c => a * base + (val c).getD 0) 0)

/-- JavaScript whitespace accepted by `parseInt`. -/
def isJsSpace (c : Char) : Bool :=
  c == ' ' || c == '\t' || c == '\n' || c == '\r' || c == '\x0b' || c == '\x0c'

/-- JavaScript `parseInt(s)` (radix unspecified, so `0x` selects base
16): leading whitespace and an optional sign are consumed, then the
maximal digit prefix is read; `none` models `NaN`. -/
def parseIntJS (s : String) : Option Int :=
  let cs := s.toList.dropWhile isJsSpace
  let signed : Int × List Char :=
    match cs with
    | '-' :: rest => (-1, rest)
    | '+' :: rest => (1, rest)
    | _ => (1, cs)
  let mag : Option Nat :=
    match signed.2 with
    | '0' :: c :: rest =>
        if c == 'x' || c == 'X' then readDigits hexVal 16 rest
        else readDigits digitVal 10 ('0' :: c :: rest)
    | l => readDigits digitVal 10 l
  mag.map fun n => signed.1 * (n : Int)

/-! ## Data model -/

/-- A boundary feature of the geojson file: an opaque geometry plus a
properties object. -/
structure Feature where
  geometry : String
  properties : Obj
deriving DecidableEq, Repr

/-- The parsed geojson file. -/
structure GeoData where
  features : List Feature
deriving DecidableEq, Repr

/-- One tabular row of the spreadsheet, header name to cell. -/
abbrev SheetRecord := Obj

/-- A boundary feature after the join: the spread-merged properties
object plus the derived numeric `totalTime` (stored apart because in
the JavaScript object it is a number written last). -/
structure MergedFeature where
  geometry : String
  properties : Obj
  totalTime : Int
deriving DecidableEq, Repr

/-- The Burmese "all" sentinel used by every select filter. -/
def allSentinel : String := "အားလုံး"

/-- The five filter fields; the date bounds are timestamps (`none`
models `null`). -/
structure FilterState where
  startDate : Option Int
  endDate : Option Int
  state : String
  township : String
  group : String
deriving DecidableEq, Repr

/-- The filter state installed by the constructor. -/
def initialFilters : FilterState :=
  { startDate := none, endDate := none,
    state := allSentinel, township := allSentinel, group := allSentinel }

/-! ## mergeData -/

/-- The body of the `map` inside `mergeData`: joins one boundary
feature with the first matching sheet row. -/
def mergeOne (sheetData : List SheetRecord) (feature : Feature) : MergedFeature :=
  let township := oget feature.properties "TS_MMR"
  let sheetEntry := sheetData.find? fun d => oget d "TS_MMR_DASH" == township
  { geometry := feature.geometry
    properties := feature.properties ++ sheetEntry.getD []
    totalTime :=
      match sheetEntry with
      | none => 0
      | some entry => ((oget entry "Time").bind parseIntJS).getD 0 }

/-- Function `mergeData`: outer join of the boundary features with the sheet
rows on the township key. -/
def mergeData (geoData : GeoData) (sheetData : List SheetRecord) : List MergedFeature :=
  geoData.features.map (mergeOne sheetData)

/-! ## applyFilters -/

/-- Model of `new Date(props.Date)` abstracted over the host date parser
`parseDate`; `none` models an invalid date (whose comparisons are all
false). -/
def dateOf (parseDate : String → Option Int) (props : Obj) : Option Int :=
  (oget props "Date").bind parseDate

/-- The predicate of `applyFilters` for a single merged feature. -/
def featureMatch (parseDate : String → Option Int) (filters : FilterState)
    (feature : MergedFeature) : Bool :=
  let props := feature.properties
  let date := dateOf parseDate props
  let dateMatch :=
    (match filters.startDate, date with
     | none, _ => true
     | some _, none => false
     | some s, some t => decide (s ≤ t)) &&
    (match filters.endDate, date with
     | none, _ => true
     | some _, none => false
     | some e, some t => decide (t ≤ e))
  let stateMatch := filters.state == allSentinel || oget props "ST_MMR" == some filters.state
  let townshipMatch :=
    filters.township == allSentinel || oget props "TS_MMR_DASH" == some filters.township
  let groupMatch := filters.group == allSentinel || oget props "Groups" == some filters.group
  dateMatch && stateMatch && townshipMatch && groupMatch

/-- Function `applyFilters`: keeps the merged features passing all four
conditions. -/
def applyFilters (parseDate : String → Option Int) (filters : FilterState)
    (mergedData : List MergedFeature) : List MergedFeature :=
  mergedData.filter (featureMatch parseDate filters)

/-! ## getStyle and the choropleth -/

/-- The style object returned by `getStyle`; the `hsl` fill colour is
kept as its three components. -/
structure Style where
  fillHue : ℚ
  fillSaturation : ℚ
  fillLightness : JsNum
  weight : ℚ
  opacity : ℚ
  color : String
  fillOpacity : ℚ
deriving DecidableEq, Repr

/-- Function `getStyle`: lightness is `100 - (value / maxTime * 50)` in
JavaScript arithmetic. -/
def getStyle (feature : MergedFeature) (maxTime : JsNum) : Style :=
  let value := feature.totalTime
  let intensity := jsDiv (.num (value : ℚ)) maxTime
  { fillHue := 0
    fillSaturation := 100
    fillLightness := jsSub (.num 100) (jsMul intensity (.num 50))
    weight := 1
    opacity := 1
    color := "white"
    fillOpacity := (7 : ℚ) / 10 }

/-- Model of `Math.max(...filteredData.map(d => d.properties.totalTime))`; the
empty spread gives `-Infinity`. -/
def maxTimeJS (data : List MergedFeature) : JsNum :=
  data.foldl (fun acc f => jsMax acc (.num (f.totalTime : ℚ))) .negInf

/-! ## Summary cards and headlines -/

/-- The four summary counters. -/
structure Totals where
  sacrificeSac : JsNum
  revolutionMartyrs : JsNum
  capturedBases : JsNum
  prisonersWar : JsNum
deriving DecidableEq, Repr

/-- Spreadsheet column of junta losses. -/
def sacKey : String := "စကစကျဆုံး"

/-- Spreadsheet column of revolution losses. -/
def martyrsKey : String := "တော်လှန်ရေးကျဆုံး"

/-- Spreadsheet column of bases captured by the revolution side. -/
def basesRevKey : String := "စခန်းသိမ်း(တော်လှန်ရေး)"

/-- Spreadsheet column of bases captured by the junta side. -/
def basesSacKey : String := "စခန်းသိမ်း(စကစ)"

/-- Spreadsheet column of prisoners of war. -/
def powKey : String := "စစ်သုံပန်း"

/-- Model of `parseInt(props[key] || 0)`: a missing or empty field falls back to
the number `0` before parsing; a non-empty field is parsed and an
unparseable one yields NaN. -/
def parseCount (props : Obj) (key : String) : JsNum :=
  match oget props key with
  | none => .num 0
  | some s =>
      if s == "" then .num 0
      else
        match parseIntJS s with
        | none => .nan
        | some n => .num (n : ℚ)

/-- The `reduce` of `updateSummaryCards`. -/
def updateSummaryCards (data : List MergedFeature) : Totals :=
  data.foldl
    (fun acc feature =>
      { sacrificeSac := jsAdd acc.sacrificeSac (parseCount feature.properties sacKey)
        revolutionMartyrs :=
          jsAdd acc.revolutionMartyrs (parseCount feature.properties martyrsKey)
        capturedBases :=
          jsAdd (jsAdd acc.capturedBases (parseCount feature.properties basesRevKey))
            (parseCount feature.properties basesSacKey)
        prisonersWar := jsAdd acc.prisonersWar (parseCount feature.properties powKey) })
    ⟨.num 0, .num 0, .num 0, .num 0⟩

/-- Function `updateHeadlines`: one `(Type1, Headline)` entry per filtered
feature, missing fields defaulting to the empty string. -/
def updateHeadlines (data : List MergedFeature) : List (String × String) :=
  data.map fun feature =>
    ((oget feature.properties "Type1").getD "", (oget feature.properties "Headline").getD "")

/-- Everything `updateChoropleth` renders, as data: the style of each
filtered feature, the summary totals and the headline list. -/
structure RenderResult where
  styles : List Style
  totals : Totals
  headlines : List (String × String)
deriving DecidableEq, Repr

/-- Function `updateChoropleth` as a pure pipeline: filter, take the maximum
total, style every filtered feature, recompute summary cards and
headlines.  Totality of this definition models that the JavaScript
original does not throw on any input reaching it with a merged data
set. -/
def updateChoropleth (parseDate : String → Option Int) (filters : FilterState)
    (mergedData : List MergedFeature) : RenderResult :=
  let filteredData := applyFilters parseDate filters mergedData
  let maxTime := maxTimeJS filteredData
  { styles := filteredData.map fun feature => getStyle feature maxTime
    totals := updateSummaryCards filteredData
    headlines := updateHeadlines filteredData }

/-! ## Cascading township dropdown -/

/-- The township values extracted by `updateTownshipFilter` before
dropdown deduplication: rows matching the state filter, mapped to
`TS_MMR_DASH` and kept only when truthy (present and non-empty). -/
def townshipOptionsSource (sheetData : List SheetRecord) (stateFilter : String) :
    List String :=
  ((sheetData.filter fun d =>
      stateFilter == allSentinel || oget d "ST_MMR" == some stateFilter).map
    fun d => oget d "TS_MMR_DASH").filterMap
    fun v =>
      match v with
      | some s => if s == "" then none else some s
      | none => none

/-- Model of `[...new Set(l)]`: inserts each element in turn, keeping the first
occurrence. -/
def dedupFirst (l : List String) : List String :=
  l.foldl (fun acc x => if x ∈ acc then acc else acc ++ [x]) []

/-- Recursive form of first-occurrence deduplication, used to reason
about `dedupFirst`. -/
def dedupRec : List String → List String
  | [] => []
  | x :: xs => x :: dedupRec (xs.filter fun y => y != x)
termination_by l => l.length
decreasing_by
  simp only [List.length_cons]
  exact Nat.lt_succ_of_le (List.length_filter_le _ _)

/-- Function `updateTownshipFilter`: returns the new township dropdown options
(the sentinel first) and the reset township filter value. -/
def updateTownshipFilter (sheetData : List SheetRecord) (stateFilter : String) :
    List String × String :=
  (allSentinel :: dedupFirst (townshipOptionsSource sheetData stateFilter), allSentinel)

/-! ## Startup -/

/-- The outcome of one of the two startup fetches. -/
inductive FetchOutcome (α : Type) where
  | ok (value : α)
  | failure
deriving DecidableEq, Repr

/-- The controller fields touched by startup. -/
structure DashState where
  sheetData : List SheetRecord
  geoData : Option GeoData
  mergedData : Option (List MergedFeature)
  filters : FilterState
deriving DecidableEq, Repr

/-- The state set up by the constructor before `init` runs. -/
def initialState : DashState :=
  { sheetData := [], geoData := none, mergedData := none, filters := initialFilters }

/-- Function `loadData`: on the joint success of both fetches it stores both
payloads and the merged data; any failure is caught, logged (the
returned flag) and leaves the state untouched. -/
def loadData (sheetFetch : FetchOutcome (List SheetRecord)) (geoFetch : FetchOutcome GeoData)
    (st : DashState) : DashState × Bool :=
  match sheetFetch, geoFetch with
  | .ok sheet, .ok geo =>
      ({ st with
          sheetData := sheet
          geoData := some geo
          mergedData := some (mergeData geo sheet) }, false)
  | _, _ => (st, true)

/-- The five statements of the `init` body, in order. -/
inductive InitStep where
  | loadDataStep
  | initMapStep
  | initFiltersStep
  | initDatePickerStep
  | updateDashboardStep
deriving DecidableEq, Repr

/-- What running `init` produces: the final field state, whether the
load error was logged, which of init's statements ran, and the first
render (which throws a `TypeError` when `mergedData` was never
assigned, since `undefined.filter` is evaluated). -/
structure InitOutcome where
  state : DashState
  errorLogged : Bool
  stepsRun : List InitStep
  render : Except String RenderResult

/-- Function `init`: awaits `loadData` (whose catch swallows a fetch failure)
and then unconditionally runs the remaining four statements; the final
`updateDashboard` call reaches `this.mergedData.filter`. -/
def init (parseDate : String → Option Int) (sheetFetch : FetchOutcome (List SheetRecord))
    (geoFetch : FetchOutcome GeoData) : InitOutcome :=
  let r := loadData sheetFetch geoFetch initialState
  let st := r.1
  let render : Except String RenderResult :=
    match st.mergedData with
    | none => .error "TypeError"
    | some md => .ok (updateChoropleth parseDate st.filters md)
  { state := st
    errorLogged := r.2
    stepsRun := [.loadDataStep, .initMapStep, .initFiltersStep, .initDatePickerStep,
      .updateDashboardStep]
    render := render }

/-! ## Fixtures -/

/-- Boundary feature of the spec's end-to-end example, township
`town1`. -/
def town1Feature : Feature := ⟨"geom1", [("TS_MMR", "town1")]⟩

/-- Boundary feature of the spec's end-to-end example, township
`town2`. -/
def town2Feature : Feature := ⟨"geom2", [("TS_MMR", "town2")]⟩

/-- The two-feature boundary file of the spec's end-to-end example. -/
def geoFixture : GeoData := ⟨[town1Feature, town2Feature]⟩

/-- The single sheet row of the spec's end-to-end example. -/
def row0 : SheetRecord := [("TS_MMR_DASH", "town1"), ("Time", "5"), ("ST_MMR", "S1")]

/-- The sheet of the spec's end-to-end example. -/
def sheetFixtureC6 : List SheetRecord := [row0]

/-- A host date parser accepting nothing; the initial filters never
consult it. -/
def noDate : String → Option Int := fun _ => none

/-- Placeholder feature used by positional `getD` access. -/
def defFeature : Feature := ⟨"", []⟩

/-- Placeholder merged feature used by positional `getD` access. -/
def defMerged : MergedFeature := ⟨"", [], 0⟩

/-! ## Lookup and join lemmas -/

/-- Field lookup as a fold from an arbitrary accumulator. -/
lemma foldl_oget_step (b : Obj) (k : String) :
    ∀ init : Option String,
      b.foldl (fun acc p => if p.1 == k then some p.2 else acc) init = (oget b k).or init := by
  induction b with
  | nil => intro init; simp [oget]
  | cons p bs ih =>
      intro init
      have h1 : (p :: bs).foldl (fun acc q => if q.1 == k then some q.2 else acc) init
          = bs.foldl (fun acc q => if q.1 == k then some q.2 else acc)
              (if p.1 == k then some p.2 else init) := rfl
      have h2 : oget (p :: bs) k
          = bs.foldl (fun acc q => if q.1 == k then some q.2 else acc)
              (if p.1 == k then some p.2 else none) := rfl
      rw [h1, h2, ih, ih]
      cases hbs : oget bs k with
      | none => by_cases hc : (p.1 == k) = true <;> simp [hc]
      | some v => simp

/-- Spread semantics: looking a key up in `a ++ b` prefers `b`. -/
lemma oget_append (a b : Obj) (k : String) :
    oget (a ++ b) k = (oget b k).or (oget a k) := by
  simp only [oget, List.foldl_append]
  exact foldl_oget_step b k _

/-- Lemma: `find?` returns the marked element when everything before it fails
the predicate and it passes. -/
lemma find?_middle {α : Type} (p : α → Bool) (l1 : List α) (a : α) (l2 : List α)
    (h1 : ∀ x ∈ l1, p x = false) (h2 : p a = true) :
    List.find? p (l1 ++ a :: l2) = some a := by
  induction l1 with
  | nil => simpa using List.find?_cons_of_pos l2 h2
  | cons x xs ih =>
      have hx : p x = false := h1 x (List.mem_cons_self x xs)
      simp only [List.cons_append]
      rw [List.find?_cons_of_neg _ (by simp [hx])]
      exact ih fun y hy => h1 y (List.mem_cons_of_mem x hy)

/-- The join misses exactly when no sheet row carries the feature's
township key. -/
lemma mergeOne_find?_eq_none (sd : List SheetRecord) (f : Feature)
    (hno : ∀ d ∈ sd, oget d "TS_MMR_DASH" ≠ oget f.properties "TS_MMR") :
    (sd.find? fun d => oget d "TS_MMR_DASH" == oget f.properties "TS_MMR") = none :=
  List.find?_eq_none.mpr fun d hd => by simp [hno d hd]

/-- C1: `mergeData` yields exactly one merged feature per boundary
feature (outer join on the boundary side), and a boundary feature whose
township key matches no sheet row keeps its properties unchanged (every
tabular field stays undefined) and gets `totalTime = 0`. -/
theorem mergeData_outer_join_C1 (geoData : GeoData) (sheetData : List SheetRecord) :
    (mergeData geoData sheetData).length = geoData.features.length ∧
    ∀ i : Nat, i < geoData.features.length →
      (∀ d ∈ sheetData,
        oget d "TS_MMR_DASH" ≠ oget (geoData.features.getD i defFeature).properties "TS_MMR") →
      ((mergeData geoData sheetData).getD i defMerged).totalTime = 0 ∧
      ((mergeData geoData sheetData).getD i defMerged).properties
        = (geoData.features.getD i defFeature).properties := by
  refine ⟨by simp [mergeData], ?_⟩
  intro i hi hno
  have hf : geoData.features.getD i defFeature = geoData.features[i] := by
    simp [List.getD_eq_getElem?_getD, List.getElem?_eq_getElem hi]
  have hm : (mergeData geoData sheetData).getD i defMerged
      = mergeOne sheetData geoData.features[i] := by
    simp [mergeData, List.getD_eq_getElem?_getD, List.getElem?_map,
      List.getElem?_eq_getElem hi]
  rw [hf] at hno
  have hfind := mergeOne_find?_eq_none sheetData geoData.features[i] hno
  rw [hm, hf]
  constructor
  · simp [mergeOne, hfind]
  · simp [mergeOne, hfind]

/-- C1 witness: in the example fixture, `town2` matches no sheet row,
so its merged feature has `totalTime = 0` and unchanged properties. -/
theorem mergeData_outer_join_C1_witness :
    ((mergeData geoFixture sheetFixtureC6).getD 1 defMerged).totalTime = 0 ∧
    ((mergeData geoFixture sheetFixtureC6).getD 1 defMerged).properties
      = (geoFixture.features.getD 1 defFeature).properties :=
  (mergeData_outer_join_C1 geoFixture sheetFixtureC6).2 1 (by decide) (by decide)

/-- C3: the merged feature's properties are the boundary properties
overlaid by the fields of the first sheet row (in row order) carrying
the feature's township key — row fields override on collision and later
matching rows are ignored — and `totalTime` is the integer parse of
that row's `Time` field; it defaults to 0 when the row is absent, the
`Time` field is absent, or the parse fails. -/
theorem mergeOne_first_match_C3 :
    (∀ (sd1 : List SheetRecord) (d0 : SheetRecord) (sd2 : List SheetRecord) (f : Feature),
      (∀ d ∈ sd1, oget d "TS_MMR_DASH" ≠ oget f.properties "TS_MMR") →
      oget d0 "TS_MMR_DASH" = oget f.properties "TS_MMR" →
      (∀ k, k ≠ "totalTime" →
        oget (mergeOne (sd1 ++ d0 :: sd2) f).properties k
          = (oget d0 k).or (oget f.properties k)) ∧
      (mergeOne (sd1 ++ d0 :: sd2) f).totalTime
        = (match oget d0 "Time" with
           | none => 0
           | some s => (parseIntJS s).getD 0)) ∧
    (∀ (sd : List SheetRecord) (f : Feature),
      (∀ d ∈ sd, oget d "TS_MMR_DASH" ≠ oget f.properties "TS_MMR") →
      (mergeOne sd f).totalTime = 0 ∧
      ∀ k, oget (mergeOne sd f).properties k = oget f.properties k) := by
  constructor
  · intro sd1 d0 sd2 f hno hmatch
    have hfind : (List.find? (fun d => oget d "TS_MMR_DASH" == oget f.properties "TS_MMR")
        (sd1 ++ d0 :: sd2)) = some d0 :=
      find?_middle _ sd1 d0 sd2 (fun x hx => by simp [hno x hx]) (by simp [hmatch])
    constructor
    · intro k _
      simp [mergeOne, hfind, oget_append]
    · simp only [mergeOne, hfind]
      cases h : oget d0 "Time" <;> simp [h]
  · intro sd f hno
    have hfind := mergeOne_find?_eq_none sd f hno
    constructor
    · simp [mergeOne, hfind]
    · intro k
      simp [mergeOne, hfind]

/-- C3 witness: in the example fixture, `town1` joins with the single
sheet row, taking `Time = "5"` (so `totalTime` parses from it) and the
row's fields on lookup. -/
theorem mergeOne_first_match_C3_witness :
    oget (mergeOne ([] ++ row0 :: []) town1Feature).properties "Time"
      = (oget row0 "Time").or (oget town1Feature.properties "Time") ∧
    (mergeOne ([] ++ row0 :: []) town1Feature).totalTime
      = (match oget row0 "Time" with
         | none => 0
         | some s => (parseIntJS s).getD 0) :=
  ⟨(mergeOne_first_match_C3.1 [] row0 [] town1Feature (by decide) (by decide)).1
      "Time" (by decide),
    (mergeOne_first_match_C3.1 [] row0 [] town1Feature (by decide) (by decide)).2⟩

/-! ## Filter evaluator -/

/-- The spec's wording of the filter condition: date within the
inclusive `[start, end]` range with a null bound imposing no
constraint, and an exact match on each string field unless that filter
holds the sentinel. -/
def filterSpecHolds (parseDate : String → Option Int) (filters : FilterState)
    (feature : MergedFeature) : Prop :=
  (∀ s, filters.startDate = some s →
    ∃ t, dateOf parseDate feature.properties = some t ∧ s ≤ t) ∧
  (∀ e, filters.endDate = some e →
    ∃ t, dateOf parseDate feature.properties = some t ∧ t ≤ e) ∧
  (filters.state ≠ allSentinel → oget feature.properties "ST_MMR" = some filters.state) ∧
  (filters.township ≠ allSentinel →
    oget feature.properties "TS_MMR_DASH" = some filters.township) ∧
  (filters.group ≠ allSentinel → oget feature.properties "Groups" = some filters.group)

/-- The filter predicate of the code agrees with the spec's wording of
it. -/
lemma featureMatch_iff (parseDate : String → Option Int) (filters : FilterState)
    (feature : MergedFeature) :
    featureMatch parseDate filters feature = true ↔
      filterSpecHolds parseDate filters feature := by
  cases hs : filters.startDate <;> cases he : filters.endDate <;>
    cases hd : dateOf parseDate feature.properties <;>
      simp [featureMatch, filterSpecHolds, hs, he, hd, or_iff_not_imp_left, and_assoc]

/-- C2: `applyFilters` keeps exactly the merged features satisfying the
conjunction of the date-range condition (a null bound unconstrained)
and the three exact string matches (each skipped at the sentinel); the
result is always a subset of the merged set, and with both bounds null
and all three string filters at the sentinel it is the whole merged
set. -/
theorem applyFilters_subset_C2 (parseDate : String → Option Int) (filters : FilterState)
    (mergedData : List MergedFeature) :
    (∀ f, f ∈ applyFilters parseDate filters mergedData ↔
      f ∈ mergedData ∧ filterSpecHolds parseDate filters f) ∧
    applyFilters parseDate filters mergedData ⊆ mergedData ∧
    (filters.startDate = none → filters.endDate = none → filters.state = allSentinel →
      filters.township = allSentinel → filters.group = allSentinel →
      applyFilters parseDate filters mergedData = mergedData) := by
  refine ⟨?_, ?_, ?_⟩
  · intro f
    rw [applyFilters, List.mem_filter, featureMatch_iff]
  · intro f hf
    exact (List.mem_filter.mp hf).1
  · intro h1 h2 h3 h4 h5
    apply List.filter_eq_self.mpr
    intro f _
    simp [featureMatch, h1, h2, h3, h4, h5]

/-- C2 witness: with the initial (all-sentinel, unbounded) filters the
example merged set is returned whole. -/
theorem applyFilters_subset_C2_witness :
    applyFilters noDate initialFilters (mergeData geoFixture sheetFixtureC6)
      = mergeData geoFixture sheetFixtureC6 :=
  (applyFilters_subset_C2 noDate initialFilters (mergeData geoFixture sheetFixtureC6)).2.2
    rfl rfl rfl rfl rfl

/-! ## Choropleth styling -/

/-- A merged feature with total 50, as used by the spec's lightness
examples. -/
def feature50 : MergedFeature := ⟨"g", [], 50⟩

/-- C4: with a positive maximum `m`, the computed fill lightness is
`100 - (value / m * 50)` percent; in particular with `m = 100` the
values 50, 100 and 0 give 75%, 50% and 100%. -/
theorem getStyle_lightness_C4 :
    (∀ (feature : MergedFeature) (m : Int), 0 < m →
      (getStyle feature (.num (m : ℚ))).fillLightness
        = .num (100 - (feature.totalTime : ℚ) / (m : ℚ) * 50)) ∧
    (∀ feature : MergedFeature, feature.totalTime = 50 →
      (getStyle feature (.num 100)).fillLightness = .num 75) ∧
    (∀ feature : MergedFeature, feature.totalTime = 100 →
      (getStyle feature (.num 100)).fillLightness = .num 50) ∧
    (∀ feature : MergedFeature, feature.totalTime = 0 →
      (getStyle feature (.num 100)).fillLightness = .num 100) := by
  have main : ∀ (feature : MergedFeature) (m : Int), 0 < m →
      (getStyle feature (.num (m : ℚ))).fillLightness
        = .num (100 - (feature.totalTime : ℚ) / (m : ℚ) * 50) := by
    intro f m hm
    have hm' : (m : ℚ) ≠ 0 := by
      exact_mod_cast ne_of_gt hm
    simp [getStyle, jsDiv, jsMul, jsSub, hm']
  refine ⟨main, ?_, ?_, ?_⟩ <;> intro f hf
  · have h := main f 100 (by norm_num)
    rw [hf] at h
    rw [show ((100 : Int) : ℚ) = (100 : ℚ) by norm_num] at h
    rw [h]
    norm_num
  · have h := main f 100 (by norm_num)
    rw [hf] at h
    rw [show ((100 : Int) : ℚ) = (100 : ℚ) by norm_num] at h
    rw [h]
    norm_num
  · have h := main f 100 (by norm_num)
    rw [hf] at h
    rw [show ((100 : Int) : ℚ) = (100 : ℚ) by norm_num] at h
    rw [h]
    norm_num

/-- C4 witness: a feature with total 50 against maximum 100 renders at
75% lightness. -/
theorem getStyle_lightness_C4_witness :
    (getStyle feature50 (.num 100)).fillLightness = .num 75 :=
  getStyle_lightness_C4.2.1 feature50 rfl

/-- C8: when the filtered set is empty the render pipeline stays total
(the empty `Math.max` spread is `-Infinity`), styles no feature, and
produces all four summary counters as 0 and an empty headline list. -/
theorem updateChoropleth_empty_C8 (parseDate : String → Option Int) (filters : FilterState)
    (mergedData : List MergedFeature)
    (h : applyFilters parseDate filters mergedData = []) :
    maxTimeJS (applyFilters parseDate filters mergedData) = .negInf ∧
    (updateChoropleth parseDate filters mergedData).styles = [] ∧
    (updateChoropleth parseDate filters mergedData).totals
      = ⟨.num 0, .num 0, .num 0, .num 0⟩ ∧
    (updateChoropleth parseDate filters mergedData).headlines = [] := by
  refine ⟨?_, ?_, ?_, ?_⟩ <;>
    simp [updateChoropleth, h, maxTimeJS, updateSummaryCards, updateHeadlines]

/-- C8 witness: the empty merged set filters to the empty set and
renders empty styles, zero counters and no headlines. -/
theorem updateChoropleth_empty_C8_witness :
    (updateChoropleth noDate initialFilters []).totals
      = ⟨.num 0, .num 0, .num 0, .num 0⟩ :=
  (updateChoropleth_empty_C8 noDate initialFilters [] rfl).2.2.1

/-- Folding `Math.max` from 0 over zero totals stays 0. -/
lemma maxTimeJS_zero_aux (l : List MergedFeature) (h : ∀ f ∈ l, f.totalTime = 0) :
    l.foldl (fun acc f => jsMax acc (.num (f.totalTime : ℚ))) (.num 0) = .num 0 := by
  induction l with
  | nil => rfl
  | cons f rest ih =>
      have hf : f.totalTime = 0 := h f (List.mem_cons_self f rest)
      simp only [List.foldl_cons, hf, Int.cast_zero]
      have h0 : jsMax (.num 0) (.num 0) = .num 0 := by simp [jsMax]
      rw [h0]
      exact ih fun g hg => h g (List.mem_cons_of_mem f hg)

/-- A non-empty filtered set of all-zero totals has maximum 0. -/
lemma maxTimeJS_all_zero (l : List MergedFeature) (hne : l ≠ [])
    (h : ∀ f ∈ l, f.totalTime = 0) : maxTimeJS l = .num 0 := by
  cases l with
  | nil => exact absurd rfl hne
  | cons f rest =>
      have hf : f.totalTime = 0 := h f (List.mem_cons_self f rest)
      simp only [maxTimeJS, List.foldl_cons, hf, Int.cast_zero]
      have h0 : jsMax .negInf (.num 0) = .num 0 := by simp [jsMax]
      rw [h0]
      exact maxTimeJS_zero_aux rest fun g hg => h g (List.mem_cons_of_mem f hg)

/-- C10: on a non-empty filtered set whose totals are all 0, the
maximum is 0, `getStyle` divides 0 by 0, and every rendered fill
lightness is NaN — the division by the maximum is unguarded, only the
empty set avoids styling. -/
theorem updateChoropleth_zero_max_C10 (parseDate : String → Option Int)
    (filters : FilterState) (mergedData : List MergedFeature)
    (hne : applyFilters parseDate filters mergedData ≠ [])
    (hzero : ∀ f ∈ applyFilters parseDate filters mergedData, f.totalTime = 0) :
    maxTimeJS (applyFilters parseDate filters mergedData) = .num 0 ∧
    ∀ s ∈ (updateChoropleth parseDate filters mergedData).styles,
      s.fillLightness = .nan := by
  have hmax := maxTimeJS_all_zero _ hne hzero
  refine ⟨hmax, ?_⟩
  intro s hs
  simp only [updateChoropleth] at hs
  rw [hmax] at hs
  obtain ⟨f, hf, rfl⟩ := List.mem_map.mp hs
  have hf0 : f.totalTime = 0 := hzero f hf
  simp [getStyle, hf0, jsDiv, jsMul, jsSub]

/-- C10 witness: one all-zero feature passes the initial filters and
its maximum computes to 0. -/
theorem updateChoropleth_zero_max_C10_witness :
    maxTimeJS (applyFilters noDate initialFilters [defMerged]) = .num 0 :=
  (updateChoropleth_zero_max_C10 noDate initialFilters [defMerged] (by decide)
    (by decide)).1

/-! ## Summary cards -/

/-- Adding the number 0 on the right is the identity. -/
lemma jsAdd_num_zero (a : JsNum) : jsAdd a (.num 0) = a := by
  cases a <;> simp [jsAdd]

/-- Adding the number 0 on the left is the identity. -/
lemma jsAdd_zero_num (a : JsNum) : jsAdd (.num 0) a = a := by
  cases a <;> simp [jsAdd]

/-- JavaScript addition is associative (NaN absorbs, opposite
infinities collapse to NaN on both groupings). -/
lemma jsAdd_assoc (a b c : JsNum) : jsAdd (jsAdd a b) c = jsAdd a (jsAdd b c) := by
  cases a <;> cases b <;> cases c <;> simp [jsAdd, add_assoc]

/-- Folding `jsAdd` from `a` adds `a` to the sum. -/
lemma foldl_jsAdd (l : List JsNum) : ∀ a, l.foldl jsAdd a = jsAdd a (jsSum l) := by
  induction l with
  | nil => intro a; exact (jsAdd_num_zero a).symm
  | cons x xs ih =>
      intro a
      simp only [jsSum, List.foldl_cons, jsAdd_zero_num]
      rw [ih (jsAdd a x), ih x, jsAdd_assoc]

/-- Peeling one summand off a JavaScript sum. -/
lemma jsSum_cons (x : JsNum) (l : List JsNum) : jsSum (x :: l) = jsAdd x (jsSum l) := by
  simp only [jsSum, List.foldl_cons, jsAdd_zero_num]
  exact foldl_jsAdd l x

/-- The per-feature contribution to the captured-bases counter: the two
base-capture fields added together. -/
def capturedContribution (props : Obj) : JsNum :=
  jsAdd (parseCount props basesRevKey) (parseCount props basesSacKey)

/-- The `reduce` of `updateSummaryCards` from an arbitrary accumulator
splits into four independent sums. -/
lemma summary_foldl (data : List MergedFeature) :
    ∀ acc : Totals,
      data.foldl
        (fun acc feature =>
          { sacrificeSac := jsAdd acc.sacrificeSac (parseCount feature.properties sacKey)
            revolutionMartyrs :=
              jsAdd acc.revolutionMartyrs (parseCount feature.properties martyrsKey)
            capturedBases :=
              jsAdd (jsAdd acc.capturedBases (parseCount feature.properties basesRevKey))
                (parseCount feature.properties basesSacKey)
            prisonersWar := jsAdd acc.prisonersWar (parseCount feature.properties powKey) })
        acc
        = ⟨jsAdd acc.sacrificeSac (jsSum (data.map fun f => parseCount f.properties sacKey)),
           jsAdd acc.revolutionMartyrs
             (jsSum (data.map fun f => parseCount f.properties martyrsKey)),
           jsAdd acc.capturedBases (jsSum (data.map fun f => capturedContribution f.properties)),
           jsAdd acc.prisonersWar (jsSum (data.map fun f => parseCount f.properties powKey))⟩ := by
  induction data with
  | nil => intro acc; simp [jsSum, jsAdd_num_zero]
  | cons f rest ih =>
      intro acc
      simp only [List.foldl_cons, List.map_cons]
      rw [ih]
      simp only [jsSum_cons, capturedContribution, ← jsAdd_assoc]

/-- C5 (amended): each summary counter is the JavaScript sum of the
per-feature contributions of its named field (captured bases being the
sum of the two base-capture fields); a missing or empty field
contributes the number 0, a parseable field contributes its leading
integer, but a non-empty field with no leading integer contributes NaN,
which poisons the whole counter — it does not default to 0. -/
theorem updateSummaryCards_sums_C5 :
    (∀ data : List MergedFeature,
      updateSummaryCards data
        = ⟨jsSum (data.map fun f => parseCount f.properties sacKey),
           jsSum (data.map fun f => parseCount f.properties martyrsKey),
           jsSum (data.map fun f => capturedContribution f.properties),
           jsSum (data.map fun f => parseCount f.properties powKey)⟩) ∧
    (∀ (props : Obj) (key : String), oget props key = none → parseCount props key = .num 0) ∧
    (∀ (props : Obj) (key : String), oget props key = some "" → parseCount props key = .num 0) ∧
    (∀ (props : Obj) (key : String) (s : String) (n : Int),
      oget props key = some s → parseIntJS s = some n → parseCount props key = .num (n : ℚ)) ∧
    (∀ (props : Obj) (key : String) (s : String),
      oget props key = some s → s ≠ "" → parseIntJS s = none → parseCount props key = .nan) := by
  refine ⟨?_, ?_, ?_, ?_, ?_⟩
  · intro data
    rw [updateSummaryCards, summary_foldl]
    simp [jsAdd_zero_num]
  · intro props key h
    simp [parseCount, h]
  · intro props key h
    simp [parseCount, h]
  · intro props key s n ho hp
    by_cases hs : s = ""
    · subst hs
      rw [show parseIntJS "" = none from rfl] at hp
      exact absurd hp (by simp)
    · simp [parseCount, ho, hs, hp]
  · intro props key s ho hs hp
    simp [parseCount, ho, hs, hp]

/-- C5 witness: a missing field contributes 0 while the non-numeric
cell `"abc"` contributes NaN. -/
theorem updateSummaryCards_sums_C5_witness :
    parseCount [] sacKey = .num 0 ∧
    parseCount [("စကစကျဆုံး", "abc")] sacKey = .nan :=
  ⟨updateSummaryCards_sums_C5.2.1 [] sacKey rfl,
   updateSummaryCards_sums_C5.2.2.2.2 [("စကစကျဆုံး", "abc")] sacKey "abc"
     (by decide) (by decide) (by decide)⟩

/-- A merged feature whose junta-losses cell is non-numeric. -/
def badCountFeature : MergedFeature := ⟨"g", [("စကစကျဆုံး", "abc")], 0⟩

/-- C5 counterexample: on a set whose only feature carries the
non-numeric junta-losses cell `"abc"`, the counter is NaN, not the 0
the claim's "unparseable contributes 0" reading predicts. -/
theorem updateSummaryCards_nan_C5_counterexample :
    (updateSummaryCards [badCountFeature]).sacrificeSac = JsNum.nan ∧
    JsNum.nan ≠ JsNum.num 0 := by
  exact ⟨by decide, by decide⟩

/-! ## The end-to-end example -/

/-- The lightness values the example fixture actually renders: `town1`
carries the maximum (5 of 5, intensity 1) and renders at 50%, `town2`
at 100%. -/
lemma fixture_lightness :
    (updateChoropleth noDate initialFilters (mergeData geoFixture sheetFixtureC6)).styles.map
      (fun s => s.fillLightness) = [.num 50, .num 100] := by
  simp +decide [updateChoropleth, applyFilters, mergeData, mergeOne, geoFixture,
    sheetFixtureC6, town1Feature, town2Feature, row0, maxTimeJS, jsMax, getStyle, jsDiv,
    jsMul, jsSub, featureMatch, initialFilters, oget, parseIntJS, readDigits, digitVal,
    isJsSpace, updateSummaryCards, updateHeadlines]
  norm_num

/-- C6 (amended): in the spec's end-to-end example the merged totals
are [5, 0], the unset filters keep both features, the maximum is 5, and
the rendered lightness is 50% for town1 (it carries the maximum) and
100% for town2 — not the claimed 75% for town1. -/
theorem example_pipeline_C6 :
    (mergeData geoFixture sheetFixtureC6).map (fun m => m.totalTime) = [5, 0] ∧
    applyFilters noDate initialFilters (mergeData geoFixture sheetFixtureC6)
      = mergeData geoFixture sheetFixtureC6 ∧
    maxTimeJS (mergeData geoFixture sheetFixtureC6) = .num 5 ∧
    (updateChoropleth noDate initialFilters (mergeData geoFixture sheetFixtureC6)).styles.map
      (fun s => s.fillLightness) = [.num 50, .num 100] :=
  ⟨by decide, by decide, by decide, fixture_lightness⟩

/-- C6 counterexample: the example does not render town1 at 75%
lightness — the computed pair differs from the claimed one. -/
theorem example_pipeline_C6_counterexample :
    ¬ (updateChoropleth noDate initialFilters (mergeData geoFixture sheetFixtureC6)).styles.map
        (fun s => s.fillLightness) = [JsNum.num 75, JsNum.num 100] := by
  rw [fixture_lightness]
  intro h
  have h50 : (50 : ℚ) = 75 := by
    have := List.head_eq_of_cons_eq h
    exact JsNum.num.inj this
  norm_num at h50

/-! ## Startup failure -/

/-- C9: when the sheet fetch fails, the caught error is only logged and
`mergedData` stays unassigned, but initialization does not abort — the
map, filter and date-picker steps still run and the first dashboard
update throws a `TypeError` (models `this.mergedData.filter` on
`undefined`). -/
theorem init_failure_C9 :
    (init noDate FetchOutcome.failure (FetchOutcome.ok geoFixture)).errorLogged = true ∧
    (init noDate FetchOutcome.failure (FetchOutcome.ok geoFixture)).state.mergedData = none ∧
    InitStep.initMapStep
      ∈ (init noDate FetchOutcome.failure (FetchOutcome.ok geoFixture)).stepsRun ∧
    InitStep.updateDashboardStep
      ∈ (init noDate FetchOutcome.failure (FetchOutcome.ok geoFixture)).stepsRun ∧
    (init noDate FetchOutcome.failure (FetchOutcome.ok geoFixture)).render
      = Except.error "TypeError" := by
  refine ⟨rfl, rfl, ?_, ?_, rfl⟩ <;> decide

/-! ## Township dropdown -/

/-- Function `dedupRec` preserves membership. -/
lemma mem_dedupRec (l : List String) (a : String) : a ∈ dedupRec l ↔ a ∈ l := by
  induction l using dedupRec.induct with
  | case1 => simp [dedupRec]
  | case2 x xs ih =>
      by_cases hax : a = x
      · subst hax
        simp [dedupRec]
      · simp [dedupRec, ih, List.mem_filter, bne_iff_ne, hax]

/-- Function `dedupRec` produces no duplicates. -/
lemma nodup_dedupRec (l : List String) : (dedupRec l).Nodup := by
  induction l using dedupRec.induct with
  | case1 => simp [dedupRec]
  | case2 x xs ih =>
      rw [dedupRec, List.nodup_cons]
      refine ⟨?_, ih⟩
      intro hx
      have hmem := (mem_dedupRec _ x).mp hx
      simp [List.mem_filter] at hmem

/-- Keeping a sublist by `filter` can only shrink relative first
positions: an index order inside the filtered list transfers to the
original list. -/
lemma indexOf_lt_of_filter (p : String → Bool) :
    ∀ (xs : List String) (a b : String), a ∈ xs.filter p → b ∈ xs.filter p →
      (xs.filter p).indexOf a < (xs.filter p).indexOf b →
      xs.indexOf a < xs.indexOf b := by
  intro xs
  induction xs with
  | nil => intro a b ha _ _; simp at ha
  | cons y ys ih =>
      intro a b ha hb hlt
      by_cases hpy : p y
      · rw [List.filter_cons_of_pos hpy] at ha hb hlt
        by_cases hay : a = y
        · subst hay
          have hb_ne : b ≠ a := by
            intro h
            subst h
            simp [List.indexOf_cons_self] at hlt
          rw [List.indexOf_cons_self, List.indexOf_cons_ne ys (Ne.symm hb_ne)]
          exact Nat.succ_pos _
        · have hb_ne : b ≠ y := by
            intro h
            subst h
            rw [List.indexOf_cons_self] at hlt
            exact Nat.not_lt_zero _ hlt
          rw [List.indexOf_cons_ne _ (Ne.symm hay), List.indexOf_cons_ne _ (Ne.symm hb_ne)]
            at hlt
          have ha' : a ∈ ys.filter p := by
            rcases List.mem_cons.mp ha with h | h
            · exact absurd h hay
            · exact h
          have hb' : b ∈ ys.filter p := by
            rcases List.mem_cons.mp hb with h | h
            · exact absurd h hb_ne
            · exact h
          rw [List.indexOf_cons_ne ys (Ne.symm hay), List.indexOf_cons_ne ys (Ne.symm hb_ne)]
          exact Nat.succ_lt_succ (ih a b ha' hb' (Nat.lt_of_succ_lt_succ hlt))
      · rw [List.filter_cons_of_neg hpy] at ha hb hlt
        have hay : a ≠ y := by
          intro h
          subst h
          exact hpy (List.of_mem_filter ha)
        have hby : b ≠ y := by
          intro h
          subst h
          exact hpy (List.of_mem_filter hb)
        rw [List.indexOf_cons_ne ys (Ne.symm hay), List.indexOf_cons_ne ys (Ne.symm hby)]
        exact Nat.succ_lt_succ (ih a b ha hb hlt)

/-- Function `dedupRec` lists elements in strictly increasing order of their
first occurrence in the source. -/
lemma pairwise_indexOf_dedupRec :
    ∀ l : List String, (dedupRec l).Pairwise fun a b => l.indexOf a < l.indexOf b := by
  intro l
  induction l using dedupRec.induct with
  | case1 => simp [dedupRec]
  | case2 x xs ih =>
      rw [dedupRec, List.pairwise_cons]
      constructor
      · intro b hb
        have hbf : b ∈ xs.filter fun y => y != x := (mem_dedupRec _ b).mp hb
        have hbx : b ≠ x := by
          have h2 := (List.mem_filter.mp hbf).2
          simpa using h2
        rw [List.indexOf_cons_self, List.indexOf_cons_ne xs (Ne.symm hbx)]
        exact Nat.succ_pos _
      · refine ih.imp_of_mem ?_
        intro a b ha hb hlt
        have haf : a ∈ xs.filter fun y => y != x := (mem_dedupRec _ a).mp ha
        have hbf : b ∈ xs.filter fun y => y != x := (mem_dedupRec _ b).mp hb
        have hax : a ≠ x := by
          have h2 := (List.mem_filter.mp haf).2
          simpa using h2
        have hbx : b ≠ x := by
          have h2 := (List.mem_filter.mp hbf).2
          simpa using h2
        have hmain := indexOf_lt_of_filter _ xs a b haf hbf hlt
        rw [List.indexOf_cons_ne xs (Ne.symm hax), List.indexOf_cons_ne xs (Ne.symm hbx)]
        exact Nat.succ_lt_succ hmain

/-- The iterated-insertion form of `Set` deduplication, continued from
an arbitrary accumulator. -/
lemma dedupFirst_go :
    ∀ l acc : List String,
      l.foldl (fun acc x => if x ∈ acc then acc else acc ++ [x]) acc
        = acc ++ dedupRec (l.filter fun x => decide (x ∉ acc)) := by
  intro l
  induction l with
  | nil => intro acc; simp [dedupRec]
  | cons x xs ih =>
      intro acc
      simp only [List.foldl_cons]
      by_cases hx : x ∈ acc
      · rw [if_pos hx, ih, List.filter_cons_of_neg (by simp [hx])]
      · rw [if_neg hx, ih, List.filter_cons_of_pos (by simp [hx]), dedupRec,
          List.append_assoc, List.singleton_append]
        congr 2
        rw [List.filter_filter]
        congr 1
        apply List.filter_congr
        intro y _
        by_cases h1 : y ∈ acc <;> by_cases h2 : y = x <;> simp [h1, h2]

/-- The `Set`-based deduplication agrees with its recursive form. -/
lemma dedupFirst_eq_dedupRec (l : List String) : dedupFirst l = dedupRec l := by
  rw [dedupFirst, dedupFirst_go l []]
  simp

/-- Membership in the extracted township values: some row matches the
state filter and carries that non-empty township. -/
lemma mem_townshipOptionsSource (sheetData : List SheetRecord) (V x : String) :
    x ∈ townshipOptionsSource sheetData V ↔
      ∃ d ∈ sheetData, (V = allSentinel ∨ oget d "ST_MMR" = some V) ∧
        oget d "TS_MMR_DASH" = some x ∧ x ≠ "" := by
  simp only [townshipOptionsSource, List.mem_filterMap, List.mem_map, List.mem_filter,
    Bool.or_eq_true, beq_iff_eq]
  constructor
  · rintro ⟨v, ⟨d, ⟨hd, hmatch⟩, rfl⟩, hv⟩
    cases hts : oget d "TS_MMR_DASH" with
    | none => rw [hts] at hv; simp at hv
    | some s =>
        rw [hts] at hv
        by_cases hs : s = ""
        · subst hs; simp at hv
        · have hv' : some s = some x := by simpa [hs] using hv
          obtain rfl := Option.some.inj hv'
          exact ⟨d, hd, hmatch, hts, hs⟩
  · rintro ⟨d, hd, hmatch, hts, hne⟩
    refine ⟨some x, ⟨d, ⟨hd, hmatch⟩, hts⟩, ?_⟩
    simp [hne]

/-- The literal fixture of the spec: only the rows carrying townships
T1 and T2 have state "Region A". -/
def regionFixture : List SheetRecord :=
  [[("ST_MMR", "Region A"), ("TS_MMR_DASH", "T1")],
   [("ST_MMR", "Region A"), ("TS_MMR_DASH", "T2")],
   [("ST_MMR", "Region B"), ("TS_MMR_DASH", "T3")]]

/-- C7: after the state filter changes to `V`, the township dropdown is
the sentinel followed by exactly the distinct non-empty townships of
the rows matching `V` (all rows when `V` is the sentinel), in
first-occurrence order, and the township filter is reset to the
sentinel; on the literal fixture, state "Region A" yields exactly the
townships T1 and T2. -/
theorem updateTownshipFilter_C7 :
    (∀ (sheetData : List SheetRecord) (V : String),
      (updateTownshipFilter sheetData V).2 = allSentinel ∧
      ∃ opts, (updateTownshipFilter sheetData V).1 = allSentinel :: opts ∧
        (∀ x, x ∈ opts ↔
          ∃ d ∈ sheetData, (V = allSentinel ∨ oget d "ST_MMR" = some V) ∧
            oget d "TS_MMR_DASH" = some x ∧ x ≠ "") ∧
        opts.Nodup ∧
        opts.Pairwise (fun a b =>
          (townshipOptionsSource sheetData V).indexOf a
            < (townshipOptionsSource sheetData V).indexOf b)) ∧
    updateTownshipFilter regionFixture "Region A"
      = ([allSentinel, "T1", "T2"], allSentinel) := by
  constructor
  · intro sheetData V
    refine ⟨rfl, dedupFirst (townshipOptionsSource sheetData V), rfl, ?_, ?_, ?_⟩
    · intro x
      rw [dedupFirst_eq_dedupRec, mem_dedupRec, mem_townshipOptionsSource]
    · rw [dedupFirst_eq_dedupRec]
      exact nodup_dedupRec _
    · rw [dedupFirst_eq_dedupRec]
      exact pairwise_indexOf_dedupRec _
  · decide

/-- C7 witness: on the literal fixture the township filter is reset to
the sentinel. -/
theorem updateTownshipFilter_C7_witness :
    (updateTownshipFilter regionFixture "Region A").2 = allSentinel :=
  (updateTownshipFilter_C7.1 regionFixture "Region A").1

end Dashboard
